import Mathlib

/-!
# Verification of the fleet manager (`scripts/fleet/fleet_manager.py`)

A shallow embedding of the kernel fleet supervisor.  Python dictionaries
become structures, the in-memory registry plus the persisted file become an
explicit `FleetState` (the `saved` field is the journal of `save_registry`
calls, most recent snapshot first), and interactions with the operating
system (socket binds, process liveness, the daemon launch, process
telemetry) become explicit environment parameters, so that every method of
`FleetManager` is a pure state transformer.

Floating point values of the source (`cpu_limit`, telemetry samples) are
abstracted to `Nat`: no claim under study depends on their arithmetic.
-/

namespace Fleet

/-- One kernel record: the dictionary built by `spawn_kernel`
(`fleet_manager.py` lines 149–162). -/
structure KernelInfo where
  id : String
  pid : Nat
  port : Nat
  language : String
  config : String
  connection_file : String
  log_file : String
  started_at : String
  status : String
  memory_limit : Option String
  cpu_limit : Option Nat
  clients : List String
  deriving Repr, DecidableEq

/-- The registry dictionary: `{"kernels": [...], "next_port": n, "total_spawned": n}`
(`fleet_manager.py` lines 38–42). -/
structure Registry where
  kernels : List KernelInfo
  next_port : Nat
  total_spawned : Nat
  deriving Repr, DecidableEq

/-- The manager's state: the in-memory registry plus the journal of
snapshots written by `save_registry` (most recent first).  `save_registry`
performs an atomic replace, so the head of `saved` is the on-disk file. -/
structure FleetState where
  registry : Registry
  saved : List Registry
  deriving Repr, DecidableEq

/-- `save_registry` (lines 45–50): atomically persist the current registry. -/
def save_registry (st : FleetState) : FleetState :=
  { st with saved := st.registry :: st.saved }

/-- The registry created by `load_registry` when no file exists (lines 38–42). -/
def freshRegistry : Registry :=
  { kernels := [], next_port := 9555, total_spawned := 0 }

/-- State right after `load_registry` initialised a fresh registry
(it saves the fresh registry at once, line 43). -/
def freshState : FleetState :=
  { registry := freshRegistry, saved := [freshRegistry] }

/-! ## Port allocator (`find_free_port`, lines 52–65)

`occupied p = true` models the probe bind at line 60 failing with `OSError`
on port `p`.  The loop runs while `port < 10000`; reaching the bound raises
`RuntimeError` (modelled by `none`). -/

/-- The scan loop of `find_free_port`, with explicit fuel.  Invoked with
fuel `10000 - port` so that the fuel runs out exactly when `port` reaches
the upper bound of the `while port < 10000` loop. -/
def find_free_port_from (occupied : Nat → Bool) : Nat → Nat → Option Nat
  | 0, _ => none
  | fuel + 1, port =>
    if occupied port then find_free_port_from occupied fuel (port + 1)
    else some port

/-- `find_free_port` (lines 52–65): first bindable port at or above `start`,
`none` for the `RuntimeError` once the scan reaches 10000. -/
def find_free_port (occupied : Nat → Bool) (start : Nat) : Option Nat :=
  find_free_port_from occupied (10000 - start) start

/-! ## Spawn orchestrator (`spawn_kernel`, lines 67–176) -/

/-- Environment of one `spawn_kernel` call: everything the method reads
from the operating system.
* `occupied` — ports on which the probe bind of `find_free_port` fails;
* `binaryFound` — whether one of the three candidate `llmspell` locations
  exists (lines 86–95);
* `launchReturncode` — the synchronous exit code of the daemonising launch
  (line 119);
* `pidFile` — the PID read from the PID file if it appears within the
  10 × 100 ms retry budget (lines 126–133), `none` on exhaustion;
* `portReady` — the outcome of `wait_for_kernel` (line 136): whether a TCP
  connect to the assigned port succeeded within the 15 s timeout;
* `kernel_id`, `started_at` — the generated id (line 77) and timestamp
  (line 157). -/
structure SpawnEnv where
  occupied : Nat → Bool
  binaryFound : Bool
  launchReturncode : Nat
  pidFile : Option Nat
  portReady : Bool
  kernel_id : String
  started_at : String

/-- Result of `spawn_kernel`: `ok` carries the registered record (the
Python return value), `failed` is the `return None` paths, `portExhausted`
is the `RuntimeError` escaping from `find_free_port`. -/
inductive SpawnOutcome where
  | ok (k : KernelInfo)
  | failed
  | portExhausted
  deriving Repr, DecidableEq

/-- The record appended to the registry on a successful spawn
(lines 149–162). -/
def spawn_record (env : SpawnEnv) (pid port : Nat) (config_file language : String)
    (memory_limit : Option String) (cpu_limit : Option Nat) : KernelInfo :=
  { id := env.kernel_id
    pid := pid
    port := port
    language := language
    config := config_file
    connection_file := env.kernel_id ++ ".json"
    log_file := "logs/" ++ env.kernel_id ++ ".log"
    started_at := env.started_at
    status := "running"
    memory_limit := memory_limit
    cpu_limit := cpu_limit
    clients := [] }

/-- `spawn_kernel` (lines 67–176) as a state transformer.  The third
component records the PIDs the call killed.  It is `[]` on every path,
faithfully to the source: the only kill site is line 139, `process.kill()`,
where the name `process` is not defined anywhere in the method (the launch
result is bound to `result`, the daemon PID to the integer `pid`), so the
statement raises `NameError`, which the bare `except` at line 140 swallows
— no process is ever killed. -/
def spawn_kernel (env : SpawnEnv) (config_file language : String)
    (memory_limit : Option String) (cpu_limit : Option Nat)
    (st : FleetState) : FleetState × SpawnOutcome × List Nat :=
  match find_free_port env.occupied st.registry.next_port with
  | none => (st, .portExhausted, [])
  | some port =>
    if env.binaryFound = false then (st, .failed, [])
    else if env.launchReturncode ≠ 0 then (st, .failed, [])
    else
      match env.pidFile with
      | none => (st, .failed, [])
      | some pid =>
        if env.portReady = false then (st, .failed, [])
        else
          let k := spawn_record env pid port config_file language memory_limit cpu_limit
          let reg' : Registry :=
            { kernels := st.registry.kernels ++ [k]
              next_port := port + 1
              total_spawned := st.registry.total_spawned + 1 }
          (save_registry { st with registry := reg' }, .ok k, [])

/-! ## Liveness reaper (`cleanup_dead_kernels`, lines 353–366)

`alive pid = true` models `psutil.Process(pid)` succeeding,
`false` models it raising `psutil.NoSuchProcess`. -/

/-- `cleanup_dead_kernels` (lines 353–366): keep the records whose process
exists; persist the registry only when the list shrank. -/
def cleanup_dead_kernels (alive : Nat → Bool) (st : FleetState) : FleetState :=
  let alive_kernels := st.registry.kernels.filter (fun k => alive k.pid)
  if alive_kernels.length ≠ st.registry.kernels.length then
    save_registry { st with registry := { st.registry with kernels := alive_kernels } }
  else st

/-! ## Termination orchestrator (`stop_kernel`, lines 285–339) -/

/-- Outcome of the `psutil` terminate/kill/wait block of `stop_kernel`
(lines 305–326) for one target process. -/
inductive TermOutcome where
  /-- The process exited within the waits (possibly after escalation). -/
  | ok
  /-- `psutil.NoSuchProcess`: the process was already dead (line 322). -/
  | alreadyDead
  /-- Any other exception (`AccessDenied`, the final `TimeoutExpired` of the
  `wait(timeout=2)` at line 320, ...), caught at line 324. -/
  | err
  deriving Repr, DecidableEq

/-- Python `str.isdigit` on the identifier argument (line 288). -/
def strIsDigit (s : String) : Bool :=
  s ≠ "" && s.data.all Char.isDigit

/-- Python `int` on a digit string (line 289). -/
def strToNat (s : String) : Nat :=
  s.data.foldl (fun n c => n * 10 + (c.toNat - 48)) 0

/-- The identifier-resolution step of `stop_kernel` (lines 287–293): a
numeric argument is first treated as a port lookup and replaced by the
matching record's id when one exists. -/
def resolve_stop_id (st : FleetState) (kernel_id : String) : String :=
  if strIsDigit kernel_id then
    match st.registry.kernels.find? (fun k => k.port = strToNat kernel_id) with
    | some k => k.id
    | none => kernel_id
  else kernel_id

/-- `stop_kernel` (lines 285–339) as a state transformer.  `term force pid`
is the outcome of the terminate/kill/wait block for the target.  Returns
the new state, the Boolean result, and the artifact files unlinked
(lines 334–336).  Faithfully to the source, on a generic exception
(`TermOutcome.err`) the method returns `False` at line 326 *before* the
registry update at lines 329–331, so the record stays and no file is
deleted. -/
def stop_kernel (term : Bool → Nat → TermOutcome) (kernel_id : String)
    (force : Bool) (st : FleetState) : FleetState × Bool × List String :=
  let kid := resolve_stop_id st kernel_id
  match st.registry.kernels.find? (fun k => k.id = kid) with
  | none => (st, false, [])
  | some kernel =>
    match term force kernel.pid with
    | .err => (st, false, [])
    | _ =>
      let reg' := { st.registry with
                    kernels := st.registry.kernels.filter (fun k => k.id ≠ kid) }
      (save_registry { st with registry := reg' }, true,
       [kid ++ ".pid", kid ++ ".json"])

/-! ## Find-or-create matcher (`find_or_create_kernel`, lines 368–402) -/

/-- The requirement dictionary passed to `find_or_create_kernel`; absent
keys are `none` (the method fills defaults via `.get`, lines 377–378). -/
structure Requirements where
  language : Option String
  config : Option String
  memory_limit : Option String
  cpu_limit : Option Nat

/-- Result of `find_or_create_kernel`: an existing match was returned
(line 390), a fresh spawn succeeded, the fallback spawn returned `None`, or
the spawn's `RuntimeError` propagated. -/
inductive FindOutcome where
  | found (k : KernelInfo)
  | created (k : KernelInfo)
  | createFailed
  | portExhausted
  deriving Repr, DecidableEq

/-- `find_or_create_kernel` (lines 368–402): reap, then linearly scan for
the first record matching language, config and `status == "running"` whose
PID re-validates as alive (the `try psutil.Process` at line 388; a dead
match is skipped and the scan continues), else delegate to `spawn_kernel`. -/
def find_or_create_kernel (alive : Nat → Bool) (env : SpawnEnv)
    (reqs : Requirements) (st : FleetState) : FleetState × FindOutcome :=
  let st1 := cleanup_dead_kernels alive st
  let language := reqs.language.getD "lua"
  let config := reqs.config.getD "default.toml"
  match st1.registry.kernels.find? (fun k =>
      k.language = language && k.config = config && k.status = "running" &&
      alive k.pid) with
  | some k => (st1, .found k)
  | none =>
    match spawn_kernel env config language reqs.memory_limit reqs.cpu_limit st1 with
    | (st2, .ok k, _) => (st2, .created k)
    | (st2, .failed, _) => (st2, .createFailed)
    | (st2, .portExhausted, _) => (st2, .portExhausted)

/-! ## Metrics aggregator (`get_metrics`, lines 404–430)

`probe pid` is the OS telemetry for `pid`: `none` models
`psutil.Process(pid)` raising `NoSuchProcess` (the record is skipped,
line 427), `some t` the sampled values. -/

/-- Point-in-time process telemetry (lines 420–424); the float samples are
abstracted to `Nat`, their arithmetic is not under study. -/
structure Telemetry where
  memory_mb : Nat
  cpu_percent : Nat
  connections : Nat
  threads : Nat
  uptime_seconds : Nat
  deriving Repr, DecidableEq

/-- One per-kernel entry of the metrics snapshot (lines 416–425). -/
structure KernelMetrics where
  id : String
  port : Nat
  language : String
  telemetry : Telemetry
  deriving Repr, DecidableEq

/-- The metrics dictionary (lines 406–411). -/
structure MetricsSnapshot where
  timestamp : String
  total_kernels : Nat
  total_spawned : Nat
  kernels : List KernelMetrics
  deriving Repr, DecidableEq

/-- `get_metrics` (lines 404–430) as a state transformer: it only reads the
registry (the returned state is the input state — the method neither edits
`self.registry` nor calls `save_registry`). -/
def get_metrics (now : String) (probe : Nat → Option Telemetry)
    (st : FleetState) : FleetState × MetricsSnapshot :=
  (st,
   { timestamp := now
     total_kernels := st.registry.kernels.length
     total_spawned := st.registry.total_spawned
     kernels := st.registry.kernels.filterMap (fun k =>
       (probe k.pid).map (fun t =>
         { id := k.id, port := k.port, language := k.language, telemetry := t })) })

/-! ## Resource limiter (`apply_resource_limits`, lines 194–238) -/

/-- Python `int` on the digit group captured by the regex. -/
def digitsToNat (l : List Char) : Nat :=
  l.foldl (fun n c => n * 10 + (c.toNat - 48)) 0

/-- The memory-string parsing of `apply_resource_limits` (lines 200–211):
`re.match(r'(\d+)([MGK]?)', memory_limit.upper())`.  `re.match` anchors at
the start only: the digit group is the maximal leading digit run, the unit
group is the single following character when it is `M`, `G` or `K` and
empty otherwise, and anything after the match is ignored.  No leading digit
means no match: the limit is skipped (`none`). -/
def parse_memory_limit (s : String) : Option Nat :=
  let u := s.data.map Char.toUpper
  let digits := u.takeWhile Char.isDigit
  if digits.isEmpty then none
  else
    let mult : Nat :=
      match u.dropWhile Char.isDigit with
      | 'G' :: _ => 1024 * 1024 * 1024
      | 'M' :: _ => 1024 * 1024
      | 'K' :: _ => 1024
      | _ => 1
    some (digitsToNat digits * mult)

/-- `apply_resource_limits` (lines 194–238), reduced to its observable
effect: the memory ceiling in bytes written to the cgroup (if any) and
whether CPU shaping was applied.  The whole body is wrapped in
`try/except` printing a warning, so the call never fails. -/
def apply_resource_limits (memory_limit : Option String) (cpu_limit : Option Nat) :
    Option Nat × Bool :=
  (memory_limit.bind parse_memory_limit, cpu_limit.isSome)

/-- Modelled from the spec (§4.4's unit table, for comparison with the
code's regex): a memory string is well-formed when it is one or more
digits followed by at most one unit suffix `K`/`M`/`G` (either case) and
nothing else. -/
def memSpecWellFormed (s : String) : Bool :=
  let digits := s.data.takeWhile Char.isDigit
  !digits.isEmpty &&
    (match s.data.dropWhile Char.isDigit with
     | [] => true
     | [c] => c = 'K' || c = 'M' || c = 'G' || c = 'k' || c = 'm' || c = 'g'
     | _ => false)

/-- Modelled from the spec (§4.4): the byte count of a well-formed memory
string under the fixed unit table (K = 1024, M = 1024², G = 1024³, no
suffix = bytes). -/
def memSpecValue (s : String) : Nat :=
  digitsToNat (s.data.takeWhile Char.isDigit) *
    (match s.data.dropWhile Char.isDigit with
     | 'G' :: _ => 1024 * 1024 * 1024
     | 'g' :: _ => 1024 * 1024 * 1024
     | 'M' :: _ => 1024 * 1024
     | 'm' :: _ => 1024 * 1024
     | 'K' :: _ => 1024
     | 'k' :: _ => 1024
     | _ => 1)

/-! ## Spawn sequences (for the port-uniqueness invariant) -/

/-- The arguments of one `spawn_kernel` call in a sequence of spawns. -/
structure SpawnReq where
  env : SpawnEnv
  config_file : String
  language : String
  memory_limit : Option String
  cpu_limit : Option Nat

/-- Run a sequence of `spawn_kernel` calls, threading the state. -/
def run_spawns : FleetState → List SpawnReq → FleetState
  | st, [] => st
  | st, r :: rs =>
      run_spawns (spawn_kernel r.env r.config_file r.language r.memory_limit
        r.cpu_limit st).1 rs

/-- Structural invariant of the registry maintained by `spawn_kernel`: all
records carry pairwise-distinct ports, each below the `next_port` cursor.
It holds of the fresh registry. -/
def RegistryPortInv (reg : Registry) : Prop :=
  reg.kernels.Pairwise (fun a b => a.port ≠ b.port) ∧
  ∀ k ∈ reg.kernels, k.port < reg.next_port

/-! ## Concrete fixtures used by witnesses and counterexamples -/

/-- A spawn environment in which every step succeeds: all ports bindable,
binary found, synchronous launch exits 0, the PID file appears with
PID 4242, and the port becomes ready. -/
def goodEnv : SpawnEnv :=
  { occupied := fun _ => false
    binaryFound := true
    launchReturncode := 0
    pidFile := some 4242
    portReady := true
    kernel_id := "kernel-11aa22bb"
    started_at := "2026-01-01T00:00:00+00:00" }

/-- A sample registry record of a running kernel on port 9555, PID 7. -/
def sampleKernel : KernelInfo :=
  { id := "kernel-aaaa0001"
    pid := 7
    port := 9555
    language := "lua"
    config := "default.toml"
    connection_file := "kernel-aaaa0001.json"
    log_file := "logs/kernel-aaaa0001.log"
    started_at := "2026-01-01T00:00:00+00:00"
    status := "running"
    memory_limit := none
    cpu_limit := none
    clients := [] }

/-- A state holding exactly `sampleKernel`, cursor already advanced. -/
def sampleState : FleetState :=
  { registry := { kernels := [sampleKernel], next_port := 9556, total_spawned := 1 }
    saved := [] }

/-! # Helper lemmas -/

theorem uint32_le_iff (a b : UInt32) : a ≤ b ↔ a.toNat ≤ b.toNat := by
  rw [UInt32.le_def, BitVec.le_def]
  exact Iff.rfl

theorem char_isDigit_iff (d : Char) : d.isDigit = true ↔ 48 ≤ d.toNat ∧ d.toNat ≤ 57 := by
  show (decide (d.val ≥ 48) && decide (d.val ≤ 57)) = true ↔ _
  rw [Bool.and_eq_true, decide_eq_true_eq, decide_eq_true_eq, ge_iff_le,
    uint32_le_iff, uint32_le_iff]
  exact Iff.rfl

/-- Python's `.upper()` does not change whether a character is a digit. -/
theorem isDigit_toUpper (c : Char) : (Char.toUpper c).isDigit = c.isDigit := by
  unfold Char.toUpper
  by_cases h : c.toNat ≥ 97 ∧ c.toNat ≤ 122
  case pos =>
    rw [if_pos h]
    obtain ⟨h1, h2⟩ := h
    have hd : c.isDigit = false := by
      cases hb : c.isDigit
      · rfl
      · exact absurd ((char_isDigit_iff c).mp hb) (by omega)
    rw [hd]
    cases hb : (Char.ofNat (c.toNat - 32)).isDigit
    · rfl
    · exfalso
      have hm1 : 65 ≤ c.toNat - 32 := by omega
      have hm2 : c.toNat - 32 ≤ 90 := by omega
      set m := c.toNat - 32 with hmdef
      interval_cases m <;> simp_all
  case neg =>
    rw [if_neg h]

theorem toUpper_of_isDigit (c : Char) (h : c.isDigit = true) : Char.toUpper c = c := by
  unfold Char.toUpper
  have := (char_isDigit_iff c).mp h
  rw [if_neg (by omega)]

theorem find_free_port_from_some {occ : Nat → Bool} :
    ∀ {fuel port p : Nat}, find_free_port_from occ fuel port = some p →
      port ≤ p ∧ occ p = false ∧ ∀ q, port ≤ q → q < p → occ q = true := by
  intro fuel
  induction fuel with
  | zero => intro port p h; simp [find_free_port_from] at h
  | succ f ih =>
    intro port p h
    unfold find_free_port_from at h
    cases hc : occ port with
    | true =>
      rw [hc] at h
      simp only [if_true] at h
      obtain ⟨h1, h2, h3⟩ := ih h
      refine ⟨by omega, h2, fun q hq1 hq2 => ?_⟩
      rcases Nat.eq_or_lt_of_le hq1 with heq | hlt
      · rw [← heq]; exact hc
      · exact h3 q hlt hq2
    | false =>
      rw [hc] at h
      simp only [Bool.false_eq_true, if_false, Option.some.injEq] at h
      subst h
      exact ⟨Nat.le_refl _, hc, fun q hq1 hq2 => absurd hq1 (by omega)⟩

theorem find_free_port_from_none {occ : Nat → Bool} :
    ∀ {fuel port : Nat}, (∀ q, port ≤ q → q < port + fuel → occ q = true) →
      find_free_port_from occ fuel port = none := by
  intro fuel
  induction fuel with
  | zero => intro port _; rfl
  | succ f ih =>
    intro port hall
    unfold find_free_port_from
    rw [hall port (Nat.le_refl _) (by omega)]
    simp only [if_true]
    exact ih fun q hq1 hq2 => hall q (by omega) (by omega)

/-- A successful `find_free_port` result is at or above the cursor. -/
theorem find_free_port_ge {occ : Nat → Bool} {start p : Nat}
    (h : find_free_port occ start = some p) : start ≤ p :=
  (find_free_port_from_some h).1

/-! # Claims -/

/-- **C6** — `find_free_port` returns the smallest candidate port at or
above the cursor on which the probe bind succeeds; once the ascending scan
reaches the fixed upper bound 10000 it fails with the port-exhaustion
error (`none`); and with port 9555 externally occupied and everything
above free it returns 9556. -/
theorem find_free_port_spec (occ : Nat → Bool) (start : Nat) :
    (∀ p, find_free_port occ start = some p →
      start ≤ p ∧ occ p = false ∧ ∀ q, start ≤ q → q < p → occ q = true) ∧
    ((∀ q, start ≤ q → q < 10000 → occ q = true) →
      find_free_port occ start = none) ∧
    find_free_port (fun q => q == 9555) 9555 = some 9556 := by
  refine ⟨fun p h => find_free_port_from_some h, fun hall => ?_, rfl⟩
  exact find_free_port_from_none fun q hq1 hq2 => hall q hq1 (by omega)

/-- Witness for C6 at concrete inputs: every port occupied from 9990 up
gives exhaustion, and the 9555-occupied scenario yields 9556. -/
theorem find_free_port_spec_witness :
    find_free_port (fun _ => true) 9990 = none ∧
    find_free_port (fun q => q == 9555) 9555 = some 9556 :=
  ⟨(find_free_port_spec (fun _ => true) 9990).2.1 (fun _ _ _ => rfl),
   (find_free_port_spec (fun q => q == 9555) 9555).2.2⟩

/-- **C4** — code bug exhibit.  When the port-readiness wait times out,
`spawn_kernel` does return the failure result without registering anything,
but it does *not* kill the spawned process: the kill site is
`process.kill()` (line 139) and the name `process` is never defined in the
method, so the statement raises `NameError`, which the bare `except`
swallows.  Here the daemon with PID 4242 survives: the killed-PID list of
the call is empty. -/
theorem spawn_port_timeout_returns_failure_without_kill :
    spawn_kernel
      { occupied := fun _ => false
        binaryFound := true
        launchReturncode := 0
        pidFile := some 4242
        portReady := false
        kernel_id := "kernel-11aa22bb"
        started_at := "2026-01-01T00:00:00+00:00" }
      "default.toml" "lua" none none freshState
      = (freshState, .failed, []) := rfl

/-- **C10** — every failing spawn (binary not found, non-zero synchronous
launch exit, PID-file wait exhaustion, or port-readiness timeout) returns
the failure result `None` and leaves the whole state — registry records,
`next_port`, `total_spawned`, and the journal of persisted snapshots —
exactly as it was. -/
theorem spawn_failure_frame (env : SpawnEnv) (cf lang : String)
    (ml : Option String) (cl : Option Nat) (st : FleetState) (p : Nat)
    (hport : find_free_port env.occupied st.registry.next_port = some p)
    (hfail : env.binaryFound = false ∨ env.launchReturncode ≠ 0 ∨
      env.pidFile = none ∨ env.portReady = false) :
    spawn_kernel env cf lang ml cl st = (st, .failed, []) := by
  unfold spawn_kernel
  rw [hport]
  rcases hfail with h | h | h | h <;>
    · simp only [h]
      split_ifs <;> first
        | rfl
        | (cases hp : env.pidFile <;> simp only [hp] <;> split_ifs <;> simp_all)

/-- Witness for C10: the binary-not-found failure on the fresh registry. -/
theorem spawn_failure_frame_witness :
    spawn_kernel
      { occupied := fun _ => false
        binaryFound := false
        launchReturncode := 0
        pidFile := none
        portReady := false
        kernel_id := "kernel-11aa22bb"
        started_at := "2026-01-01T00:00:00+00:00" }
      "default.toml" "lua" none none freshState
      = (freshState, .failed, []) :=
  spawn_failure_frame _ "default.toml" "lua" none none freshState 9555 rfl
    (Or.inl rfl)

/-- **C1** — a successful spawn on a registry whose `next_port` cursor is
9555, with port 9555 bindable, appends exactly one new record carrying
port 9555 and status `"running"`, sets `total_spawned` to its old value
plus one, advances `next_port` to the assigned port plus one (9556), and
persists exactly that registry. -/
theorem spawn_success_registers (env : SpawnEnv) (cf lang : String)
    (ml : Option String) (cl : Option Nat) (st : FleetState) (pid : Nat)
    (hnp : st.registry.next_port = 9555)
    (hfree : env.occupied 9555 = false)
    (hbin : env.binaryFound = true)
    (hrc : env.launchReturncode = 0)
    (hpid : env.pidFile = some pid)
    (hready : env.portReady = true) :
    spawn_kernel env cf lang ml cl st =
      ({ registry :=
           { kernels := st.registry.kernels ++ [spawn_record env pid 9555 cf lang ml cl]
             next_port := 9556
             total_spawned := st.registry.total_spawned + 1 }
         saved :=
           { kernels := st.registry.kernels ++ [spawn_record env pid 9555 cf lang ml cl]
             next_port := 9556
             total_spawned := st.registry.total_spawned + 1 } :: st.saved }
       , .ok (spawn_record env pid 9555 cf lang ml cl), []) ∧
    (spawn_record env pid 9555 cf lang ml cl).port = 9555 ∧
    (spawn_record env pid 9555 cf lang ml cl).status = "running" := by
  have hfp : find_free_port env.occupied st.registry.next_port = some 9555 := by
    rw [hnp]
    show find_free_port_from env.occupied 445 9555 = some 9555
    unfold find_free_port_from
    rw [hfree]
    rfl
  refine ⟨?_, rfl, rfl⟩
  unfold spawn_kernel
  rw [hfp, hbin, hrc, hpid, hready]
  rfl

/-- Witness for C1: the fully successful spawn environment applied to the
fresh registry (cursor 9555) yields the registered record on port 9555. -/
theorem spawn_success_registers_witness :
    spawn_kernel goodEnv "default.toml" "lua" none none freshState =
      ({ registry :=
           { kernels := [spawn_record goodEnv 4242 9555 "default.toml" "lua" none none]
             next_port := 9556
             total_spawned := 1 }
         saved :=
           [{ kernels := [spawn_record goodEnv 4242 9555 "default.toml" "lua" none none]
              next_port := 9556
              total_spawned := 1 }, freshRegistry] }
       , .ok (spawn_record goodEnv 4242 9555 "default.toml" "lua" none none), []) ∧
    (spawn_record goodEnv 4242 9555 "default.toml" "lua" none none).port = 9555 ∧
    (spawn_record goodEnv 4242 9555 "default.toml" "lua" none none).status = "running" :=
  spawn_success_registers goodEnv "default.toml" "lua" none none freshState 4242
    rfl rfl rfl rfl rfl rfl

/-- **C7** — the reaper removes exactly the records whose PID no longer
corresponds to an existing process, leaves the counters alone, persists
only when at least one record was removed, and is idempotent: run again
with no intervening death it removes nothing and does not persist. -/
theorem cleanup_dead_kernels_spec (alive : Nat → Bool) (st : FleetState) :
    (cleanup_dead_kernels alive st).registry.kernels
        = st.registry.kernels.filter (fun k => alive k.pid) ∧
    (cleanup_dead_kernels alive st).registry.next_port = st.registry.next_port ∧
    (cleanup_dead_kernels alive st).registry.total_spawned
        = st.registry.total_spawned ∧
    ((∀ k ∈ st.registry.kernels, alive k.pid = true) →
      cleanup_dead_kernels alive st = st) ∧
    ((st.registry.kernels.filter (fun k => alive k.pid)).length
        ≠ st.registry.kernels.length →
      (cleanup_dead_kernels alive st).saved
        = (cleanup_dead_kernels alive st).registry :: st.saved) ∧
    cleanup_dead_kernels alive (cleanup_dead_kernels alive st)
        = cleanup_dead_kernels alive st := by
  by_cases h : (st.registry.kernels.filter (fun k => alive k.pid)).length
      = st.registry.kernels.length
  case pos =>
    have heq : st.registry.kernels.filter (fun k => alive k.pid)
        = st.registry.kernels :=
      (List.filter_sublist st.registry.kernels).eq_of_length h
    have hcl : cleanup_dead_kernels alive st = st := by
      unfold cleanup_dead_kernels
      rw [if_neg (fun hne => hne h)]
    refine ⟨?_, ?_, ?_, fun _ => hcl, fun hne => absurd h hne, ?_⟩
    · rw [hcl, heq]
    · rw [hcl]
    · rw [hcl]
    · rw [hcl, hcl]
  case neg =>
    have hcl : cleanup_dead_kernels alive st
        = save_registry { st with registry := { st.registry with
            kernels := st.registry.kernels.filter (fun k => alive k.pid) } } := by
      unfold cleanup_dead_kernels
      rw [if_pos h]
    refine ⟨?_, ?_, ?_, ?_, ?_, ?_⟩
    · rw [hcl]
      rfl
    · rw [hcl]
      rfl
    · rw [hcl]
      rfl
    · intro hall
      exact absurd (by rw [List.filter_eq_self.mpr hall]) h
    · intro _
      rw [hcl]
      rfl
    · have hff : (st.registry.kernels.filter (fun k => alive k.pid)).filter
          (fun k => alive k.pid)
          = st.registry.kernels.filter (fun k => alive k.pid) := by
        rw [List.filter_filter]
        simp only [Bool.and_self]
      rw [hcl]
      unfold cleanup_dead_kernels save_registry
      simp only [hff]
      rw [if_neg (fun hne => hne rfl)]

/-- Witness for C7: an all-alive state is untouched, and a state with a
dead kernel persists the pruned registry. -/
theorem cleanup_dead_kernels_spec_witness :
    cleanup_dead_kernels (fun _ => true) sampleState = sampleState ∧
    (cleanup_dead_kernels (fun _ => false) sampleState).saved
      = (cleanup_dead_kernels (fun _ => false) sampleState).registry
          :: sampleState.saved :=
  ⟨(cleanup_dead_kernels_spec (fun _ => true) sampleState).2.2.2.1 (fun _ _ => rfl),
   (cleanup_dead_kernels_spec (fun _ => false) sampleState).2.2.2.2.1 (by decide)⟩

/-- The ids of the per-kernel metrics entries are exactly the ids of the
records whose PID probe succeeded. -/
theorem metrics_ids (probe : Nat → Option Telemetry) (l : List KernelInfo) :
    (l.filterMap (fun k => (probe k.pid).map (fun t =>
        ({ id := k.id, port := k.port, language := k.language, telemetry := t }
          : KernelMetrics)))).map (fun m => m.id)
      = (l.filter (fun k => (probe k.pid).isSome)).map (fun k => k.id) := by
  induction l with
  | nil => rfl
  | cons k l ih =>
    cases hp : probe k.pid <;> simp [List.filterMap_cons, hp, ih]

/-- **C9** — the metrics snapshot carries a telemetry entry exactly for the
records whose PID still corresponds to a process, silently skipping the
vanished ones, and leaves the state — registry records, `next_port`,
`total_spawned`, and the persisted journal — completely unchanged. -/
theorem get_metrics_spec (now : String) (probe : Nat → Option Telemetry)
    (st : FleetState) :
    (get_metrics now probe st).1 = st ∧
    ((get_metrics now probe st).2.kernels.map (fun m => m.id))
      = ((st.registry.kernels.filter (fun k => (probe k.pid).isSome)).map
          (fun k => k.id)) ∧
    (get_metrics now probe st).2.total_kernels = st.registry.kernels.length ∧
    (get_metrics now probe st).2.total_spawned = st.registry.total_spawned :=
  ⟨rfl, metrics_ids probe st.registry.kernels, rfl, rfl⟩

/-- **C3** — counterexample to the claim as stated.  On a state holding the
record `kernel-aaaa0001`, a `stop` whose terminate block raises a generic
error (e.g. `psutil.AccessDenied`, or `TimeoutExpired` escaping the final
`wait(timeout=2)`) returns `False` at line 326 *before* the registry
update: the record is still present and no artifact file was deleted —
contradicting "removes that record ... regardless of whether terminating
... raised an error". -/
theorem stop_kernel_error_keeps_record :
    stop_kernel (fun _ _ => TermOutcome.err) "kernel-aaaa0001" false sampleState
      = (sampleState, false, []) ∧
    sampleState.registry.kernels.any (fun k => k.id = "kernel-aaaa0001") = true :=
  ⟨by decide, by decide⟩

/-- **C3** amended — when `stop` resolves a target record: if terminating
succeeds or the process is already dead (`NoSuchProcess`), the record is
removed, the pruned registry persisted, the PID file and connection
descriptor deleted, and the call succeeds (the record is then absent); if
terminating raises any other error, the call fails and leaves the
registry, journal and files untouched. -/
theorem stop_kernel_spec (term : Bool → Nat → TermOutcome) (kid : String)
    (force : Bool) (st : FleetState) (kernel : KernelInfo)
    (hfind : st.registry.kernels.find?
        (fun k => k.id = resolve_stop_id st kid) = some kernel) :
    (term force kernel.pid = .err →
      stop_kernel term kid force st = (st, false, [])) ∧
    (term force kernel.pid ≠ .err →
      stop_kernel term kid force st =
        (save_registry { st with registry := { st.registry with
            kernels := st.registry.kernels.filter
              (fun k => k.id ≠ resolve_stop_id st kid) } },
         true,
         [resolve_stop_id st kid ++ ".pid", resolve_stop_id st kid ++ ".json"])) ∧
    (term force kernel.pid ≠ .err →
      (stop_kernel term kid force st).1.registry.kernels.find?
        (fun k => k.id = resolve_stop_id st kid) = none) := by
  have hbranch : ∀ (h : term force kernel.pid ≠ TermOutcome.err),
      stop_kernel term kid force st =
        (save_registry { st with registry := { st.registry with
            kernels := st.registry.kernels.filter
              (fun k => k.id ≠ resolve_stop_id st kid) } },
         true,
         [resolve_stop_id st kid ++ ".pid", resolve_stop_id st kid ++ ".json"]) := by
    intro h
    unfold stop_kernel
    simp only [hfind]
  refine ⟨?_, hbranch, ?_⟩
  · intro h
    unfold stop_kernel
    simp only [hfind, h]
  · intro h
    rw [hbranch h]
    rw [List.find?_eq_none]
    intro x hx
    have hne := (List.mem_filter.mp hx).2
    simpa using hne

/-- Witness for C3 (amended): stopping `kernel-aaaa0001` with a cleanly
terminating process removes the record, persists, deletes both files. -/
theorem stop_kernel_spec_witness :
    stop_kernel (fun _ _ => TermOutcome.ok) "kernel-aaaa0001" false sampleState =
      (save_registry { sampleState with registry := { sampleState.registry with
          kernels := sampleState.registry.kernels.filter
            (fun k => k.id ≠ resolve_stop_id sampleState "kernel-aaaa0001") } },
       true,
       [resolve_stop_id sampleState "kernel-aaaa0001" ++ ".pid",
        resolve_stop_id sampleState "kernel-aaaa0001" ++ ".json"]) :=
  ((stop_kernel_spec (fun _ _ => TermOutcome.ok) "kernel-aaaa0001" false
      sampleState sampleKernel (by decide)).2.1) (by decide)

/-- On a well-formed memory string the code's regex parse agrees with the
spec's unit table. -/
theorem parse_memory_limit_wellFormed (s : String)
    (h : memSpecWellFormed s = true) :
    parse_memory_limit s = some (memSpecValue s) := by
  have hpred : (Char.isDigit ∘ Char.toUpper) = Char.isDigit :=
    funext isDigit_toUpper
  have htw : (s.data.map Char.toUpper).takeWhile Char.isDigit
      = s.data.takeWhile Char.isDigit := by
    rw [List.takeWhile_map, hpred]
    exact List.map_congr_left
      (fun c hc => toUpper_of_isDigit c (List.mem_takeWhile_imp hc))
      |>.trans (List.map_id _)
  have hdw : (s.data.map Char.toUpper).dropWhile Char.isDigit
      = (s.data.dropWhile Char.isDigit).map Char.toUpper := by
    rw [List.dropWhile_map, hpred]
  unfold memSpecWellFormed at h
  rw [Bool.and_eq_true] at h
  obtain ⟨h1, h2⟩ := h
  rw [Bool.not_eq_eq_eq_not, Bool.not_true] at h1
  unfold parse_memory_limit memSpecValue
  simp only [htw, hdw, h1, Bool.false_eq_true, if_false]
  cases hrest : s.data.dropWhile Char.isDigit with
  | nil => simp
  | cons c cs =>
    rw [hrest] at h2
    cases cs with
    | cons c2 cs2 => simp at h2
    | nil =>
      simp only [Bool.or_eq_true, decide_eq_true_eq] at h2
      rcases h2 with ((((rfl | rfl) | rfl) | rfl) | rfl) | rfl <;> simp

/-- A memory string not beginning with a digit fails the regex: the limit
is skipped. -/
theorem parse_memory_limit_nondigit (s : String)
    (h : ∀ c, s.data.head? = some c → c.isDigit = false) :
    parse_memory_limit s = none := by
  unfold parse_memory_limit
  cases hl : s.data with
  | nil => simp
  | cons c cs =>
    have hc := h c (by rw [hl]; rfl)
    simp [List.takeWhile_cons, isDigit_toUpper, hc]

/-- **C8** — counterexample to the claim as stated.  "512X" is malformed
under the spec's fixed unit grammar (digits plus optional K/M/G), yet
`re.match(r'(\d+)([MGK]?)', ...)` matches its digit prefix with an empty
unit group: `apply_resource_limits` applies a 512-byte memory limit
instead of skipping limiting entirely. -/
theorem memory_limit_malformed_not_skipped :
    memSpecWellFormed "512X" = false ∧
    apply_resource_limits (some "512X") none = (some 512, false) :=
  ⟨by decide, by decide⟩

/-- **C8** amended — a well-formed memory string (digits with an optional
K/M/G suffix, either case) parses into a byte count via the fixed unit
table (K = 1024, M = 1024², G = 1024³, no suffix = bytes), and a string
that does not begin with a digit makes the call skip memory limiting
entirely (no limit applied, no failure); a malformed string that *does*
begin with digits is instead parsed from its digit prefix with any
trailing characters ignored. -/
theorem apply_resource_limits_memory (s : String) (cl : Option Nat) :
    (memSpecWellFormed s = true →
      apply_resource_limits (some s) cl = (some (memSpecValue s), cl.isSome)) ∧
    ((∀ c, s.data.head? = some c → c.isDigit = false) →
      apply_resource_limits (some s) cl = (none, cl.isSome)) := by
  constructor
  · intro h
    unfold apply_resource_limits
    rw [Option.some_bind, parse_memory_limit_wellFormed s h]
  · intro h
    unfold apply_resource_limits
    rw [Option.some_bind, parse_memory_limit_nondigit s h]

/-- Witness for C8 (amended): "512M" parses to 512 MiB; "lots" (no leading
digit) skips the limit. -/
theorem apply_resource_limits_memory_witness :
    apply_resource_limits (some "512M") none = (some (512 * 1024 * 1024), false) ∧
    apply_resource_limits (some "lots") none = (none, false) := by
  constructor
  · rw [(apply_resource_limits_memory "512M" none).1 (by decide)]
    decide
  · refine (apply_resource_limits_memory "lots" none).2 ?_
    intro c hc
    rw [show ("lots".data.head?) = some 'l' from rfl] at hc
    injection hc with h2
    subst h2
    decide

/-- Complete case analysis of `spawn_kernel`: either it fails (returning
the state untouched), or it succeeds and appends exactly the new record,
advancing the cursor past the assigned port and persisting. -/
theorem spawn_kernel_cases (env : SpawnEnv) (cf lang : String)
    (ml : Option String) (cl : Option Nat) (st : FleetState) :
    (spawn_kernel env cf lang ml cl st = (st, .failed, []) ∨
     spawn_kernel env cf lang ml cl st = (st, .portExhausted, [])) ∨
    ∃ pid port,
      env.pidFile = some pid ∧
      find_free_port env.occupied st.registry.next_port = some port ∧
      spawn_kernel env cf lang ml cl st =
        (save_registry { st with registry :=
            { kernels := st.registry.kernels ++ [spawn_record env pid port cf lang ml cl]
              next_port := port + 1
              total_spawned := st.registry.total_spawned + 1 } },
         .ok (spawn_record env pid port cf lang ml cl), []) := by
  cases hfp : find_free_port env.occupied st.registry.next_port with
  | none =>
    left
    right
    unfold spawn_kernel
    rw [hfp]
  | some port =>
    by_cases hb : env.binaryFound = false
    · left; left
      unfold spawn_kernel
      rw [hfp]
      simp [hb]
    · by_cases hrc : env.launchReturncode ≠ 0
      · left; left
        unfold spawn_kernel
        rw [hfp]
        simp [hb, hrc]
      · cases hpf : env.pidFile with
        | none =>
          left; left
          unfold spawn_kernel
          rw [hfp]
          simp [hb, hrc, hpf]
        | some pid =>
          by_cases hpr : env.portReady = false
          · left; left
            unfold spawn_kernel
            rw [hfp]
            simp [hb, hrc, hpf, hpr]
          · right
            refine ⟨pid, port, rfl, rfl, ?_⟩
            unfold spawn_kernel
            rw [hfp]
            simp [hb, hrc, hpf, hpr]

/-- Every record surviving the reaper is alive. -/
theorem cleanup_all_alive (alive : Nat → Bool) (st : FleetState) :
    ∀ k ∈ (cleanup_dead_kernels alive st).registry.kernels, alive k.pid = true := by
  by_cases h : (st.registry.kernels.filter (fun k => alive k.pid)).length
      = st.registry.kernels.length
  · have heq : st.registry.kernels.filter (fun k => alive k.pid)
        = st.registry.kernels :=
      (List.filter_sublist st.registry.kernels).eq_of_length h
    unfold cleanup_dead_kernels
    rw [if_neg (fun hne => hne h)]
    intro k hk
    rw [← heq] at hk
    exact (List.mem_filter.mp hk).2
  · unfold cleanup_dead_kernels
    rw [if_pos h]
    intro k hk
    exact (List.mem_filter.mp hk).2

/-- The reaper is the identity on a state whose records are all alive. -/
theorem cleanup_of_all_alive (alive : Nat → Bool) (st : FleetState)
    (h : ∀ k ∈ st.registry.kernels, alive k.pid = true) :
    cleanup_dead_kernels alive st = st := by
  unfold cleanup_dead_kernels
  rw [if_neg]
  intro hne
  exact hne (by rw [List.filter_eq_self.mpr h])

/-- One spawn preserves the port invariant. -/
theorem spawn_preserves_inv (env : SpawnEnv) (cf lang : String)
    (ml : Option String) (cl : Option Nat) (st : FleetState)
    (hinv : RegistryPortInv st.registry) :
    RegistryPortInv (spawn_kernel env cf lang ml cl st).1.registry := by
  rcases spawn_kernel_cases env cf lang ml cl st with (h | h) | ⟨pid, port, _, hfp, h⟩
  · rw [h]; exact hinv
  · rw [h]; exact hinv
  · rw [h]
    obtain ⟨hpw, hlt⟩ := hinv
    have hge : st.registry.next_port ≤ port := find_free_port_ge hfp
    constructor
    · show List.Pairwise _
        (st.registry.kernels ++ [spawn_record env pid port cf lang ml cl])
      rw [List.pairwise_append]
      refine ⟨hpw, List.pairwise_singleton _ _, ?_⟩
      intro a ha b hb
      rw [List.mem_singleton] at hb
      subst hb
      have := hlt a ha
      show a.port ≠ port
      omega
    · intro x hx
      show x.port < port + 1
      rcases List.mem_append.mp hx with hx | hx
      · have := hlt x hx
        omega
      · rw [List.mem_singleton] at hx
        subst hx
        show port < port + 1
        omega

/-- A whole sequence of spawns preserves the port invariant. -/
theorem run_spawns_inv (reqs : List SpawnReq) :
    ∀ st : FleetState, RegistryPortInv st.registry →
      RegistryPortInv (run_spawns st reqs).registry := by
  induction reqs with
  | nil => intro st h; exact h
  | cons r rs ih =>
    intro st h
    exact ih _ (spawn_preserves_inv r.env r.config_file r.language
      r.memory_limit r.cpu_limit st h)

/-- **C2** — along every sequence of spawn operations started from a state
satisfying the registry port invariant (the fresh registry does), no two
records whose processes are both currently alive share a port: in fact all
registered ports are pairwise distinct, because each spawn assigns a port
at or above the `next_port` cursor and then advances the cursor past it. -/
theorem spawn_sequence_alive_ports_distinct (reqs : List SpawnReq)
    (st : FleetState) (hinv : RegistryPortInv st.registry) (alive : Nat → Bool) :
    (run_spawns st reqs).registry.kernels.Pairwise
      (fun a b => alive a.pid = true → alive b.pid = true → a.port ≠ b.port) :=
  ((run_spawns_inv reqs st hinv).1).imp (fun hne _ _ => hne)

/-- Witness for C2: two consecutive successful spawns from the fresh
registry, every process alive. -/
theorem spawn_sequence_alive_ports_distinct_witness :
    (run_spawns freshState
        [{ env := goodEnv, config_file := "default.toml", language := "lua"
           memory_limit := none, cpu_limit := none },
         { env := goodEnv, config_file := "default.toml", language := "lua"
           memory_limit := none, cpu_limit := none }]).registry.kernels.Pairwise
      (fun a b => (fun _ => true) a.pid = true → (fun _ => true) b.pid = true →
        a.port ≠ b.port) :=
  spawn_sequence_alive_ports_distinct _ freshState
    ⟨List.Pairwise.nil, fun k hk => absurd hk (List.not_mem_nil k)⟩
    (fun _ => true)

/-- `find?` on a singleton whose element satisfies the predicate. -/
theorem find?_singleton_of {α : Type} (p : α → Bool) (a : α) (h : p a = true) :
    List.find? p [a] = some a := by
  rw [List.find?_cons, h]

/-- **C5** — two `find_or_create` calls with the identical requirement
shape, where the first succeeds (finding or creating a record `k`) and no
process dies in between (one liveness view covers both calls, under which
`k`'s process is alive), return the same record: the second call matches
`k` (or an identical earlier match) without spawning a second kernel, and
leaves the state untouched. -/
theorem find_or_create_no_duplicate_spawn (alive : Nat → Bool)
    (env env2 : SpawnEnv) (reqs : Requirements) (st st1 : FleetState)
    (k : KernelInfo)
    (h : find_or_create_kernel alive env reqs st = (st1, .found k) ∨
         find_or_create_kernel alive env reqs st = (st1, .created k))
    (halive : alive k.pid = true) :
    find_or_create_kernel alive env2 reqs st1 = (st1, .found k) := by
  have key : (∀ x ∈ st1.registry.kernels, alive x.pid = true) ∧
      st1.registry.kernels.find? (fun x =>
        x.language = reqs.language.getD "lua" &&
        x.config = reqs.config.getD "default.toml" &&
        x.status = "running" && alive x.pid) = some k := by
    unfold find_or_create_kernel at h
    cases hf : (cleanup_dead_kernels alive st).registry.kernels.find? (fun x =>
        x.language = reqs.language.getD "lua" &&
        x.config = reqs.config.getD "default.toml" &&
        x.status = "running" && alive x.pid) with
    | some k0 =>
      simp only [hf] at h
      rcases h with h | h
      · rw [Prod.ext_iff] at h
        obtain ⟨h1, h2⟩ := h
        injection h2 with h2
        subst h2
        subst h1
        exact ⟨cleanup_all_alive alive st, hf⟩
      · rw [Prod.ext_iff] at h
        obtain ⟨-, h2⟩ := h
        exact absurd h2 (by simp)
    | none =>
      simp only [hf] at h
      rcases hsp : spawn_kernel env (reqs.config.getD "default.toml")
          (reqs.language.getD "lua") reqs.memory_limit reqs.cpu_limit
          (cleanup_dead_kernels alive st) with ⟨st2, outcome, killed⟩
      rw [hsp] at h
      cases outcome with
      | failed =>
        rcases h with h | h <;>
          · rw [Prod.ext_iff] at h
            exact absurd h.2 (by simp)
      | portExhausted =>
        rcases h with h | h <;>
          · rw [Prod.ext_iff] at h
            exact absurd h.2 (by simp)
      | ok k2 =>
        rcases h with h | h
        · rw [Prod.ext_iff] at h
          exact absurd h.2 (by simp)
        · rw [Prod.ext_iff] at h
          obtain ⟨h1, h2⟩ := h
          injection h2 with h2
          subst h2
          subst h1
          rcases spawn_kernel_cases env (reqs.config.getD "default.toml")
              (reqs.language.getD "lua") reqs.memory_limit reqs.cpu_limit
              (cleanup_dead_kernels alive st) with (hc | hc) | ⟨pid, port, _, _, hc⟩
          · rw [hc] at hsp
            rw [Prod.ext_iff] at hsp
            exact absurd hsp.2 (by simp)
          · rw [hc] at hsp
            rw [Prod.ext_iff] at hsp
            exact absurd hsp.2 (by simp)
          · rw [hc] at hsp
            rw [Prod.ext_iff, Prod.ext_iff] at hsp
            obtain ⟨hst, hk, -⟩ := hsp
            injection hk with hk
            subst hk
            subst hst
            constructor
            · intro x hx
              rcases List.mem_append.mp hx with hx | hx
              · exact cleanup_all_alive alive st x hx
              · rw [List.mem_singleton] at hx
                subst hx
                exact halive
            · have hpred : (fun x : KernelInfo =>
                  x.language = reqs.language.getD "lua" &&
                  x.config = reqs.config.getD "default.toml" &&
                  x.status = "running" && alive x.pid)
                  (spawn_record env pid port (reqs.config.getD "default.toml")
                    (reqs.language.getD "lua") reqs.memory_limit reqs.cpu_limit)
                  = true := by
                have h2 : alive pid = true := by
                  simpa only [spawn_record] using halive
                simp [spawn_record, h2]
              have hfind2 : List.find? (fun x =>
                  x.language = reqs.language.getD "lua" &&
                  x.config = reqs.config.getD "default.toml" &&
                  x.status = "running" && alive x.pid)
                  ((cleanup_dead_kernels alive st).registry.kernels ++
                    [spawn_record env pid port (reqs.config.getD "default.toml")
                      (reqs.language.getD "lua") reqs.memory_limit reqs.cpu_limit])
                  = some (spawn_record env pid port (reqs.config.getD "default.toml")
                      (reqs.language.getD "lua") reqs.memory_limit reqs.cpu_limit) := by
                rw [List.find?_append, hf, Option.none_or]
                exact find?_singleton_of _ _ hpred
              exact hfind2
  obtain ⟨hall, hfind⟩ := key
  unfold find_or_create_kernel
  rw [cleanup_of_all_alive alive st1 hall]
  simp only [hfind]

/-- Witness for C5: the state already holding the matching running kernel
`sampleKernel`; the first call finds it and the second call returns the
very same record without spawning. -/
theorem find_or_create_no_duplicate_spawn_witness :
    find_or_create_kernel (fun _ => true) goodEnv
      { language := some "lua", config := some "default.toml"
        memory_limit := none, cpu_limit := none } sampleState
      = (sampleState, .found sampleKernel) :=
  find_or_create_no_duplicate_spawn (fun _ => true) goodEnv goodEnv
    { language := some "lua", config := some "default.toml"
      memory_limit := none, cpu_limit := none } sampleState sampleState
    sampleKernel (Or.inl (by decide)) rfl

end Fleet
